import Mathlib

/-!
Verification development for the MELCloud optimizer core: an authenticated
device API client (session, device enumeration, state read, read-modify-write
temperature set) and a schedule guard driving two cron jobs.

The driver logic is embedded from `drivers/boiler/driver.ts`.  The
`MelCloudApi` client itself is not part of the available sources (only its
test suite is), so the client operations are modelled from the specification,
as marked on each definition.
-/

namespace MelCloud

/-- JSON-like scalar values appearing in device documents and identifiers. -/
inductive JVal where
  | num (q : Rat)
  | str (s : String)
  | bool (b : Bool)
  | null
deriving DecidableEq, Repr

/-- Error taxonomy: NETWORK, API, AUTH, UNKNOWN (spec section 7). -/
inductive ErrorCategory where
  | NETWORK
  | API
  | AUTH
  | UNKNOWN
deriving DecidableEq, Repr

/-- A typed application error: category plus message (spec section 3, AppError). -/
structure AppError where
  category : ErrorCategory
  message : String
deriving DecidableEq, Repr

/-- A device entity as cached by the registry: id, name, parent building id. -/
structure Device where
  id : JVal
  name : String
  buildingId : Int
deriving DecidableEq, Repr

/-- A nested device record inside a building of the ListDevices response. -/
structure DeviceRec where
  deviceID : JVal
  deviceName : String
deriving DecidableEq, Repr

/-- A building record of the ListDevices response: `{ID, Structure:{Devices}}`. -/
structure Building where
  id : Int
  devices : List DeviceRec
deriving DecidableEq, Repr

/-- A device telemetry document: an ordered association list of fields. -/
def DeviceState : Type := List (String × JVal)

instance : DecidableEq DeviceState := by
  unfold DeviceState
  infer_instance

instance : Repr DeviceState := by
  unfold DeviceState
  infer_instance

/-- Parsed body of the login response: `{ErrorId, ErrorMessage?, LoginData:{ContextKey}}`. -/
structure LoginBody where
  errorId : Option Int
  errorMessage : String
  contextKey : String
deriving DecidableEq, Repr

/-- Body of an outgoing request: login credentials or a full state document. -/
inductive ReqBody where
  | loginCreds (email password : String)
  | stateDoc (s : DeviceState)
deriving DecidableEq, Repr

/-- One outgoing HTTPS request as observed on the wire. -/
structure HttpRequest where
  method : String
  path : String
  auth : Option String
  body : Option ReqBody
deriving DecidableEq, Repr

/-- Outcome of one HTTP exchange, from the transport's point of view:
2xx with a parsed body, a non-2xx status, or a transport-level failure. -/
inductive Exchange (β : Type) where
  | success (body : β)
  | failure (status : Nat) (text : String)
  | netFail (cause : String)
deriving DecidableEq, Repr

/-- Modelled from the spec: mapping one HTTP exchange to a result.  A 2xx
response yields its body; a non-2xx status yields an API error with message
`"API error: <status> <statusText>"`; a transport failure yields a NETWORK
error with message `"API request error: <cause>"` (spec sections 4.1, 4.2, 6). -/
def exchangeResult {β : Type} : Exchange β → Except AppError β
  | .success b => .ok b
  | .failure s t => .error ⟨.API, "API error: " ++ toString s ++ " " ++ t⟩
  | .netFail c => .error ⟨.NETWORK, "API request error: " ++ c⟩

/-- Client state: the session context key (absent while unauthenticated) and
the cached device list of the registry. -/
structure ClientState where
  contextKey : Option String
  devices : List Device
deriving DecidableEq, Repr

/-- Result of one client operation: the resolved value or the AppError it
failed with, the client state afterwards, and the requests issued, in order. -/
structure OpResult (α : Type) where
  result : Except AppError α
  state : ClientState
  requests : List HttpRequest

/-- Modelled from the spec: the synchronous AUTH precondition failure raised
by authenticated operations when no session exists ("Not logged in",
spec section 4.2); zero requests are issued. -/
def notLoggedIn : AppError := ⟨.AUTH, "Not logged in"⟩

/-- The login request: POST `{Email, Password}` to the login endpoint,
no auth header (spec section 6). -/
def loginRequest (email password : String) : HttpRequest :=
  ⟨"POST", "/Mitsubishi.Wifi.Client/Login/ClientLogin", none,
    some (.loginCreds email password)⟩

/-- The device-listing request: GET with the session token (spec section 6). -/
def listDevicesRequest (key : String) : HttpRequest :=
  ⟨"GET", "/Mitsubishi.Wifi.Client/User/ListDevices", some key, none⟩

/-- The device-state request: GET with query parameters `id` and `buildingID`
and the session token (spec section 6). -/
def getStateRequest (key deviceId : String) (buildingId : Int) : HttpRequest :=
  ⟨"GET",
    "/Mitsubishi.Wifi.Client/Device/Get?id=" ++ deviceId
      ++ "&buildingID=" ++ toString buildingId,
    some key, none⟩

/-- The state-mutation request: POST the full payload document with the
session token (spec section 6). -/
def setAtaRequest (key : String) (payload : DeviceState) : HttpRequest :=
  ⟨"POST", "/Mitsubishi.Wifi.Client/Device/SetAta", some key,
    some (.stateDoc payload)⟩

/-- Modelled from the spec: `login(email, password)` of the missing
`MelCloudApi`.  POSTs `{Email, Password}` to the login endpoint; on HTTP
success with `ErrorId` null, stores the context key and resolves `true`; on a
non-null `ErrorId`, fails with category API and message
`"MELCloud login failed: <ErrorMessage>"`; transport failures surface via
`exchangeResult` (spec section 4.1). -/
def login (st : ClientState) (net : Exchange LoginBody)
    (email password : String) : OpResult Bool :=
  let req := loginRequest email password
  match exchangeResult net with
  | .error e => ⟨.error e, st, [req]⟩
  | .ok body =>
    match body.errorId with
    | none =>
      ⟨.ok true, { st with contextKey := some body.contextKey }, [req]⟩
    | some _ =>
      ⟨.error ⟨.API, "MELCloud login failed: " ++ body.errorMessage⟩, st, [req]⟩

/-- Modelled from the spec: the flattening step of `getDevices` — each
building's nested device records become Device entities inheriting the
parent building's identifier as `buildingId` (spec section 4.2). -/
def flattenBuildings (bs : List Building) : List Device :=
  bs.flatMap (fun b => b.devices.map (fun d => ⟨d.deviceID, d.deviceName, b.id⟩))

/-- Modelled from the spec: `getDevices()` of the missing `MelCloudApi`.
Fails synchronously with the AUTH error and zero requests when no session
exists; otherwise GETs the device-listing endpoint with the session token,
flattens buildings into devices and replaces the cache on success
(spec section 4.2). -/
def getDevices (st : ClientState) (net : Exchange (List Building)) :
    OpResult (List Device) :=
  match st.contextKey with
  | none => ⟨.error notLoggedIn, st, []⟩
  | some key =>
    let req := listDevicesRequest key
    match exchangeResult net with
    | .error e => ⟨.error e, st, [req]⟩
    | .ok bs =>
      let devs := flattenBuildings bs
      ⟨.ok devs, { st with devices := devs }, [req]⟩

/-- Modelled from the spec: `getDeviceState(deviceId, buildingId)` of the
missing `MelCloudApi`.  AUTH precondition as in `getDevices`; otherwise GETs
the device-state endpoint with query parameters `id` and `buildingID` and
returns the parsed telemetry document verbatim (spec section 4.3). -/
def getDeviceState (st : ClientState) (net : Exchange DeviceState)
    (deviceId : String) (buildingId : Int) : OpResult DeviceState :=
  match st.contextKey with
  | none => ⟨.error notLoggedIn, st, []⟩
  | some key =>
    let req := getStateRequest key deviceId buildingId
    match exchangeResult net with
    | .error e => ⟨.error e, st, [req]⟩
    | .ok doc => ⟨.ok doc, st, [req]⟩

/-- Overwrite (or append) one field of an association-list document. -/
def setField : DeviceState → String → JVal → DeviceState
  | [], k, v => [(k, v)]
  | (k', v') :: rest, k, v =>
    if k' = k then (k, v) :: rest else (k', v') :: setField rest k v

/-- Look up the first binding of a key in a document. -/
def lookupField : DeviceState → String → Option JVal
  | [], _ => none
  | (k', v') :: rest, k => if k' = k then some v' else lookupField rest k

/-- Modelled from the spec: the write payload of `setDeviceTemperature` —
the fetched state document with its temperature field overwritten with the
target and the required effective-flag set (spec section 4.3, step 2). -/
def buildSetPayload (doc : DeviceState) (target : Rat) : DeviceState :=
  setField (setField doc "SetTemperature" (.num target)) "EffectiveFlags" (.num 1)

/-- Modelled from the spec: `setDeviceTemperature(deviceId, buildingId,
targetTemperature)` of the missing `MelCloudApi`.  AUTH precondition first;
then the read-modify-write pattern: fetch the state (propagating its failure
verbatim with no write attempted), build the payload, POST it to the
state-mutation endpoint, and resolve `true` on any 2xx response
(spec section 4.3). -/
def setDeviceTemperature (st : ClientState) (netGet : Exchange DeviceState)
    (netPost : Exchange Unit) (deviceId : String) (buildingId : Int)
    (target : Rat) : OpResult Bool :=
  match st.contextKey with
  | none => ⟨.error notLoggedIn, st, []⟩
  | some key =>
    let g := getDeviceState st netGet deviceId buildingId
    match g.result with
    | .error e => ⟨.error e, g.state, g.requests⟩
    | .ok doc =>
      let postReq := setAtaRequest key (buildSetPayload doc target)
      match exchangeResult netPost with
      | .error e => ⟨.error e, g.state, g.requests ++ [postReq]⟩
      | .ok _ => ⟨.ok true, g.state, g.requests ++ [postReq]⟩

/-- `getDeviceById(id)`: pure synchronous lookup of the first cached device
whose id matches; `none` when absent (embedded from the registry contract the
test suite exercises, spec section 4.2). -/
def getDeviceById (st : ClientState) (id : JVal) : Option Device :=
  st.devices.find? (fun d => decide (d.id = id))

end MelCloud

namespace BoilerDriver

/-- A cron job handle: expression, timezone and running flag
(from `drivers/boiler/driver.ts`, the `CronJob` constructor calls). -/
structure CronJob where
  cronExpression : String
  timezone : String
  running : Bool
deriving DecidableEq, Repr

/-- Driver state: the two optional job handles
(from `drivers/boiler/driver.ts`, fields `hourlyJob` and `weeklyJob`). -/
structure DriverState where
  hourlyJob : Option CronJob
  weeklyJob : Option CronJob
deriving DecidableEq, Repr

/-- The settings the guard reads: `melcloud_user` and `device_id`
(`this.homey.settings.get`), each a string or absent. -/
structure Settings where
  melcloud_user : Option String
  device_id : Option String
deriving DecidableEq, Repr

/-- JavaScript truthiness of a settings value: absent and the empty string
are falsy (`if (melcloudUser && deviceId)` in the source). -/
def truthy : Option String → Bool
  | none => false
  | some s => s ≠ ""

/-- `job.start()` on an optional handle: sets the running flag. -/
def startJob : Option CronJob → Option CronJob
  | none => none
  | some j => some { j with running := true }

/-- Whether an optional job handle is in the Running state. -/
def jobRunning : Option CronJob → Bool
  | none => false
  | some j => j.running

/-- `ensureCronRunningIfReady` from `drivers/boiler/driver.ts` lines 81-105:
reads `melcloud_user` and `device_id`; when both are truthy, starts each
existing job that is not already running; otherwise logs and does nothing. -/
def ensureCronRunningIfReady (s : Settings) (st : DriverState) : DriverState :=
  if truthy s.melcloud_user && truthy s.device_id then
    { hourlyJob :=
        if jobRunning st.hourlyJob then st.hourlyJob else startJob st.hourlyJob,
      weeklyJob :=
        if jobRunning st.weeklyJob then st.weeklyJob else startJob st.weeklyJob }
  else st

/-- The two jobs as constructed in `initializeCronJobs` (driver.ts lines
41-67): hourly `0 * * * *` and weekly `0 2 * * 0`, timezone Europe/Oslo,
`start` argument false so neither is auto-started. -/
def createdJobs : DriverState :=
  { hourlyJob := some ⟨"0 * * * *", "Europe/Oslo", false⟩,
    weeklyJob := some ⟨"0 2 * * 0", "Europe/Oslo", false⟩ }

/-- `initializeCronJobs` from `drivers/boiler/driver.ts` lines 41-76:
creates both jobs stopped, then invokes `ensureCronRunningIfReady` once. -/
def initializeCronJobs (s : Settings) : DriverState :=
  ensureCronRunningIfReady s createdJobs

/-- Result document of an optimization callback: `{success, message?, data?}`
(spec section 6, collaborator interface). -/
structure OptResult where
  success : Bool
  message : Option String
  data : Option String
deriving DecidableEq, Repr

/-- Outcome of awaiting an optimization callback: a result or a thrown error. -/
def TickOutcome : Type := Except String OptResult

/-- The try-block of `runHourlyOptimization` (driver.ts lines 111-125):
awaits the optimizer — a rejection propagates as a thrown error — then logs
success or the failure message.  The jobs are never touched.  Returns the
driver state and the error-log entries, or the uncaught error. -/
def hourlyTryBlock (st : DriverState) (outcome : TickOutcome) :
    Except String (DriverState × List String) :=
  match outcome with
  | .error e => .error e
  | .ok r =>
    if r.success then .ok (st, [])
    else .ok (st, ["❌ Hourly optimization failed: " ++ r.message.getD ""])

/-- `runHourlyOptimization` from `drivers/boiler/driver.ts` lines 110-129:
the try-block wrapped in the catch clause, which logs the thrown error and
returns normally, so the cron job is never stopped or restarted by a tick. -/
def runHourlyOptimization (st : DriverState) (outcome : TickOutcome) :
    DriverState × List String :=
  match hourlyTryBlock st outcome with
  | .ok res => res
  | .error e => (st, ["❌ Error during hourly optimization: " ++ e])

/-- The try-block of `runWeeklyCalibration` (driver.ts lines 135-149):
same shape as the hourly tick, for the weekly calibration callback. -/
def weeklyTryBlock (st : DriverState) (outcome : TickOutcome) :
    Except String (DriverState × List String) :=
  match outcome with
  | .error e => .error e
  | .ok r =>
    if r.success then .ok (st, [])
    else .ok (st, ["❌ Weekly calibration failed: " ++ r.message.getD ""])

/-- `runWeeklyCalibration` from `drivers/boiler/driver.ts` lines 134-153:
the try-block wrapped in the catch clause, which logs and returns normally. -/
def runWeeklyCalibration (st : DriverState) (outcome : TickOutcome) :
    DriverState × List String :=
  match weeklyTryBlock st outcome with
  | .ok res => res
  | .error e => (st, ["❌ Error during weekly calibration: " ++ e])

end BoilerDriver

namespace MelCloud

/-! ### Association-list lemmas for the write-payload frame property -/

theorem lookupField_setField_self (doc : DeviceState) (k : String) (v : JVal) :
    lookupField (setField doc k v) k = some v := by
  induction doc with
  | nil => simp [setField, lookupField]
  | cons hd tl ih =>
    obtain ⟨ka, va⟩ := hd
    by_cases h : ka = k
    · simp [setField, lookupField, h]
    · simp [setField, lookupField, h, ih]

theorem lookupField_setField_other (doc : DeviceState) (k kq : String)
    (v : JVal) (h : kq ≠ k) :
    lookupField (setField doc k v) kq = lookupField doc kq := by
  induction doc with
  | nil =>
    simp only [setField, lookupField]
    rw [if_neg (fun hh => h hh.symm)]
  | cons hd tl ih =>
    obtain ⟨ka, va⟩ := hd
    by_cases h' : ka = k
    · subst h'
      simp only [setField, if_pos rfl, lookupField]
      rw [if_neg (fun hh => h hh.symm), if_neg (fun hh => h hh.symm)]
    · simp [setField, lookupField, h', ih]

end MelCloud

namespace MelCloud

/-- C2: every authenticated operation (`getDevices`, `getDeviceState`,
`setDeviceTemperature`) invoked while the session is absent fails
synchronously with an AUTH-category error and issues zero network requests. -/
theorem auth_absent_fails_no_requests (st : ClientState)
    (netList : Exchange (List Building)) (netState : Exchange DeviceState)
    (netGet : Exchange DeviceState) (netPost : Exchange Unit)
    (deviceId : String) (buildingId : Int) (target : Rat)
    (h : st.contextKey = none) :
    notLoggedIn.category = .AUTH ∧
    (getDevices st netList).result = .error notLoggedIn ∧
    (getDevices st netList).requests = [] ∧
    (getDeviceState st netState deviceId buildingId).result = .error notLoggedIn ∧
    (getDeviceState st netState deviceId buildingId).requests = [] ∧
    (setDeviceTemperature st netGet netPost deviceId buildingId target).result
      = .error notLoggedIn ∧
    (setDeviceTemperature st netGet netPost deviceId buildingId target).requests
      = [] := by
  refine ⟨rfl, ?_, ?_, ?_, ?_, ?_, ?_⟩ <;>
    simp [getDevices, getDeviceState, setDeviceTemperature, h]

/-- Witness for C2 at a concrete unauthenticated state. -/
theorem auth_absent_fails_no_requests_witness :
    (⟨none, []⟩ : ClientState).contextKey = none ∧
    (getDevices ⟨none, []⟩ (.success [])).requests = [] ∧
    (getDevices ⟨none, []⟩ (.success [])).result = .error notLoggedIn :=
  ⟨rfl,
    (auth_absent_fails_no_requests ⟨none, []⟩ (.success []) (.success [])
      (.success []) (.success ()) "123" 456 22 rfl).2.2.1,
    (auth_absent_fails_no_requests ⟨none, []⟩ (.success []) (.success [])
      (.success []) (.success ()) "123" 456 22 rfl).2.1⟩

/-- C5: the write payload POSTed by `setDeviceTemperature` is exactly the
fetched state document with the temperature field overwritten with the
target (plus the required effective-flag); every other field is unchanged. -/
theorem setDeviceTemperature_frame (st : ClientState) (key : String)
    (doc : DeviceState) (netPost : Exchange Unit) (deviceId : String)
    (buildingId : Int) (target : Rat) (hkey : st.contextKey = some key) :
    (setDeviceTemperature st (.success doc) netPost deviceId buildingId
        target).requests.map (fun r => r.body)
      = [none, some (.stateDoc (buildSetPayload doc target))] ∧
    lookupField (buildSetPayload doc target) "SetTemperature"
      = some (.num target) ∧
    lookupField (buildSetPayload doc target) "EffectiveFlags" = some (.num 1) ∧
    (∀ k, k ≠ "SetTemperature" → k ≠ "EffectiveFlags" →
      lookupField (buildSetPayload doc target) k = lookupField doc k) := by
  refine ⟨?_, ?_, ?_, ?_⟩
  · cases netPost <;>
      simp [setDeviceTemperature, getDeviceState, hkey, exchangeResult,
        getStateRequest, setAtaRequest]
  · unfold buildSetPayload
    rw [lookupField_setField_other _ _ _ _ (by decide)]
    exact lookupField_setField_self ..
  · exact lookupField_setField_self ..
  · intro k h1 h2
    unfold buildSetPayload
    rw [lookupField_setField_other _ _ _ _ h2,
      lookupField_setField_other _ _ _ _ h1]

/-- Witness for C5 at a concrete document and target. -/
theorem setDeviceTemperature_frame_witness :
    (⟨some "k", []⟩ : ClientState).contextKey = some "k" ∧
    lookupField
      (buildSetPayload [("DeviceID", .str "123"), ("SetTemperature", .num 21)] 22)
      "DeviceID" = some (.str "123") :=
  ⟨rfl,
    (setDeviceTemperature_frame ⟨some "k", []⟩ "k"
      [("DeviceID", .str "123"), ("SetTemperature", .num 21)] (.success ())
      "123" 456 22 rfl).2.2.2 "DeviceID" (by decide) (by decide)⟩

end MelCloud

namespace MelCloud

/-- C1: while authenticated, `setDeviceTemperature` issues exactly two
requests in order — the GET for device state then the POST to the
state-mutation endpoint — and resolves `true` only if both succeed; if the
GET fails, its failure is propagated verbatim and zero POSTs are issued. -/
theorem setDeviceTemperature_two_requests (st : ClientState) (key : String)
    (netGet : Exchange DeviceState) (netPost : Exchange Unit)
    (deviceId : String) (buildingId : Int) (target : Rat)
    (hkey : st.contextKey = some key) :
    (∀ doc, exchangeResult netGet = .ok doc →
      (setDeviceTemperature st netGet netPost deviceId buildingId
          target).requests
        = [getStateRequest key deviceId buildingId,
           setAtaRequest key (buildSetPayload doc target)]) ∧
    (∀ doc, exchangeResult netGet = .ok doc → exchangeResult netPost = .ok () →
      (setDeviceTemperature st netGet netPost deviceId buildingId
          target).result = .ok true) ∧
    (∀ b, (setDeviceTemperature st netGet netPost deviceId buildingId
          target).result = .ok b →
      b = true ∧ (∃ doc, exchangeResult netGet = .ok doc) ∧
        exchangeResult netPost = .ok ()) ∧
    (∀ e, exchangeResult netGet = .error e →
      (setDeviceTemperature st netGet netPost deviceId buildingId
          target).result = .error e ∧
      (setDeviceTemperature st netGet netPost deviceId buildingId
          target).requests = [getStateRequest key deviceId buildingId]) := by
  refine ⟨?_, ?_, ?_, ?_⟩ <;> cases netGet <;> cases netPost <;>
    simp [setDeviceTemperature, getDeviceState, hkey, exchangeResult]

/-- Witness for C1 at a concrete successful run. -/
theorem setDeviceTemperature_two_requests_witness :
    (⟨some "k", []⟩ : ClientState).contextKey = some "k" ∧
    (setDeviceTemperature ⟨some "k", []⟩
        (.success [("SetTemperature", .num 21)]) (.success ()) "123" 456
        22).requests
      = [getStateRequest "k" "123" 456,
         setAtaRequest "k" (buildSetPayload [("SetTemperature", .num 21)] 22)] :=
  ⟨rfl,
    (setDeviceTemperature_two_requests ⟨some "k", []⟩ "k"
      (.success [("SetTemperature", .num 21)]) (.success ()) "123" 456 22
      rfl).1 [("SetTemperature", .num 21)] rfl⟩

/-- C6: a non-2xx response with status `s` and status text `t` on any
authenticated endpoint yields a failure whose message is exactly
`"API error: <s> <t>"`. -/
theorem api_error_exact_message (st : ClientState) (key : String) (s : Nat)
    (t : String) (deviceId : String) (buildingId : Int) (target : Rat)
    (netPost : Exchange Unit) (doc : DeviceState)
    (hkey : st.contextKey = some key) :
    (getDevices st (.failure s t)).result
      = .error ⟨.API, "API error: " ++ toString s ++ " " ++ t⟩ ∧
    (getDeviceState st (.failure s t) deviceId buildingId).result
      = .error ⟨.API, "API error: " ++ toString s ++ " " ++ t⟩ ∧
    (setDeviceTemperature st (.failure s t) netPost deviceId buildingId
        target).result
      = .error ⟨.API, "API error: " ++ toString s ++ " " ++ t⟩ ∧
    (setDeviceTemperature st (.success doc) (.failure s t) deviceId buildingId
        target).result
      = .error ⟨.API, "API error: " ++ toString s ++ " " ++ t⟩ := by
  refine ⟨?_, ?_, ?_, ?_⟩ <;>
    simp [getDevices, getDeviceState, setDeviceTemperature, hkey,
      exchangeResult]

/-- Witness for C6: a 500 "Internal Server Error" response yields exactly
the message "API error: 500 Internal Server Error". -/
theorem api_error_exact_message_witness :
    (⟨some "k", []⟩ : ClientState).contextKey = some "k" ∧
    (getDevices ⟨some "k", []⟩ (.failure 500 "Internal Server Error")).result
      = .error ⟨.API, "API error: 500 Internal Server Error"⟩ :=
  ⟨rfl,
    (api_error_exact_message ⟨some "k", []⟩ "k" 500 "Internal Server Error"
      "123" 456 22 (.success ()) [] rfl).1⟩

end MelCloud

namespace MelCloud

/-- C4: on a successful device-listing response, `getDevices` flattens the
buildings into devices and a device is in the flattened sequence exactly when
its record is nested in a building whose identifier it inherits as
`buildingId`. -/
theorem getDevices_flattens (st : ClientState) (key : String)
    (bs : List Building) (hkey : st.contextKey = some key) :
    (getDevices st (.success bs)).result = .ok (flattenBuildings bs) ∧
    (getDevices st (.success bs)).state.devices = flattenBuildings bs ∧
    (∀ d : Device, d ∈ flattenBuildings bs ↔
      ∃ b ∈ bs, (⟨d.id, d.name⟩ : DeviceRec) ∈ b.devices ∧
        d.buildingId = b.id) := by
  refine ⟨by simp [getDevices, hkey, exchangeResult],
    by simp [getDevices, hkey, exchangeResult], ?_⟩
  intro d
  constructor
  · intro hd
    simp only [flattenBuildings, List.mem_flatMap, List.mem_map] at hd
    obtain ⟨b, hb, rec, hrec, hdef⟩ := hd
    refine ⟨b, hb, ?_, ?_⟩
    · cases rec
      cases hdef
      exact hrec
    · cases hdef
      rfl
  · rintro ⟨b, hb, hrec, hbid⟩
    simp only [flattenBuildings, List.mem_flatMap, List.mem_map]
    refine ⟨b, hb, ⟨d.id, d.name⟩, hrec, ?_⟩
    cases d
    simp_all

/-- Witness for C4: one building (ID 123) with one nested device
(DeviceID 456, DeviceName "Test Device") flattens to exactly one Device
{id: 456, name: "Test Device", buildingId: 123}. -/
theorem getDevices_flattens_witness :
    (⟨some "k", []⟩ : ClientState).contextKey = some "k" ∧
    (getDevices ⟨some "k", []⟩
        (.success [⟨123, [⟨.num 456, "Test Device"⟩]⟩])).result
      = .ok [⟨.num 456, "Test Device", 123⟩] :=
  ⟨rfl,
    (getDevices_flattens ⟨some "k", []⟩ "k"
      [⟨123, [⟨.num 456, "Test Device"⟩]⟩] rfl).1⟩

/-- C7: a login whose HTTP exchange succeeds with `ErrorId` null stores the
returned context key as the active session and resolves `true`, and a
subsequent authenticated call succeeds without a further login (it issues
only its own request, carrying the stored key). -/
theorem login_stores_session (st : ClientState)
    (email password msg key : String) (bs : List Building) :
    (login st (.success ⟨none, msg, key⟩) email password).result = .ok true ∧
    (login st (.success ⟨none, msg, key⟩) email password).state.contextKey
      = some key ∧
    (getDevices (login st (.success ⟨none, msg, key⟩) email password).state
        (.success bs)).result = .ok (flattenBuildings bs) ∧
    (getDevices (login st (.success ⟨none, msg, key⟩) email password).state
        (.success bs)).requests = [listDevicesRequest key] := by
  refine ⟨rfl, rfl, ?_, ?_⟩ <;> simp [login, getDevices, exchangeResult]

end MelCloud

namespace MelCloud

/-- C9: `getDeviceById` is a pure lookup on the cached sequence: a `some`
result is the first cached device whose id matches, `none` is returned
exactly when no cached device has that id (never a failure), and the
concrete two-device cache behaves as the spec's example says. -/
theorem getDeviceById_pure_lookup (st : ClientState) (id : JVal) :
    (∀ d, getDeviceById st id = some d → d ∈ st.devices ∧ d.id = id) ∧
    (getDeviceById st id = none ↔ ∀ d ∈ st.devices, d.id ≠ id) ∧
    (∀ l₁ d l₂, st.devices = l₁ ++ d :: l₂ → d.id = id →
      (∀ dp ∈ l₁, dp.id ≠ id) → getDeviceById st id = some d) ∧
    getDeviceById ⟨none, [⟨.str "123", "Device 1", 456⟩,
        ⟨.str "789", "Device 2", 456⟩]⟩ (.str "123")
      = some ⟨.str "123", "Device 1", 456⟩ ∧
    getDeviceById ⟨none, [⟨.str "123", "Device 1", 456⟩,
        ⟨.str "789", "Device 2", 456⟩]⟩ (.str "999") = none := by
  refine ⟨?_, ?_, ?_, rfl, rfl⟩
  · intro d hd
    refine ⟨List.mem_of_find?_eq_some hd, ?_⟩
    have := List.find?_some hd
    simpa using this
  · unfold getDeviceById
    rw [List.find?_eq_none]
    simp
  · intro l₁ d l₂ hdev hid hnone
    unfold getDeviceById
    rw [hdev]
    clear hdev
    revert hnone
    induction l₁ with
    | nil =>
      intro _
      simp [List.find?, hid]
    | cons dp l₁t ih =>
      intro hnone
      rw [List.cons_append, List.find?_cons_of_neg]
      · exact ih (fun dq hq => hnone dq (List.mem_cons_of_mem dp hq))
      · simp [hnone dp (List.mem_cons_self dp l₁t)]

end MelCloud

namespace BoilerDriver

/-- C3: with the account-identifier or device-identifier setting absent, any
number of invocations of `ensureCronRunningIfReady` leaves the driver state
untouched (no job transitions, no error), and a job only ever transitions to
Running when both settings are present. -/
theorem guard_missing_setting_never_starts (s : Settings) (st : DriverState)
    (n : Nat) (h : s.melcloud_user = none ∨ s.device_id = none) :
    (ensureCronRunningIfReady s)^[n] st = st ∧
    (∀ sq stq, jobRunning (ensureCronRunningIfReady sq stq).hourlyJob = true →
      jobRunning stq.hourlyJob = true ∨
        (sq.melcloud_user ≠ none ∧ sq.device_id ≠ none)) ∧
    (∀ sq stq, jobRunning (ensureCronRunningIfReady sq stq).weeklyJob = true →
      jobRunning stq.weeklyJob = true ∨
        (sq.melcloud_user ≠ none ∧ sq.device_id ≠ none)) := by
  have hfix : ∀ stq, ensureCronRunningIfReady s stq = stq := by
    intro stq
    unfold ensureCronRunningIfReady
    rcases h with h | h <;> simp [h, truthy]
  have honly : ∀ sq stq,
      ensureCronRunningIfReady sq stq ≠ stq →
      sq.melcloud_user ≠ none ∧ sq.device_id ≠ none := by
    intro sq stq hne
    unfold ensureCronRunningIfReady at hne
    by_cases hc : (truthy sq.melcloud_user && truthy sq.device_id) = true
    · rcases hu : sq.melcloud_user with _ | u
      · simp [hu, truthy] at hc
      · rcases hd : sq.device_id with _ | d
        · simp [hd, truthy] at hc
        · exact ⟨by simp [hu], by simp [hd]⟩
    · rw [if_neg hc] at hne
      exact absurd rfl hne
  refine ⟨?_, ?_, ?_⟩
  · induction n with
    | zero => rfl
    | succ m ih => rw [Function.iterate_succ_apply', ih, hfix]
  · intro sq stq hrun
    by_cases hne : ensureCronRunningIfReady sq stq = stq
    · rw [hne] at hrun
      exact Or.inl hrun
    · exact Or.inr (honly sq stq hne)
  · intro sq stq hrun
    by_cases hne : ensureCronRunningIfReady sq stq = stq
    · rw [hne] at hrun
      exact Or.inl hrun
    · exact Or.inr (honly sq stq hne)

/-- Witness for C3: five guard invocations with `melcloud_user` absent leave
the freshly created (stopped) jobs exactly as they were. -/
theorem guard_missing_setting_never_starts_witness :
    ((⟨none, some "123"⟩ : Settings).melcloud_user = none ∨
      (⟨none, some "123"⟩ : Settings).device_id = none) ∧
    (ensureCronRunningIfReady ⟨none, some "123"⟩)^[5] createdJobs
      = createdJobs :=
  ⟨Or.inl rfl,
    (guard_missing_setting_never_starts ⟨none, some "123"⟩ createdJobs 5
      (Or.inl rfl)).1⟩

/-- C8: a tick of the hourly or weekly job never changes the driver's job
state, whatever the optimization callback does: a rejection is caught by the
catch clause and logged, and a failed result is logged; the jobs keep
running on their own cadence. -/
theorem tick_never_stops_jobs (st : DriverState) (outcome : TickOutcome) :
    (runHourlyOptimization st outcome).1 = st ∧
    (runWeeklyCalibration st outcome).1 = st ∧
    (∀ e, hourlyTryBlock st (.error e) = .error e) ∧
    (∀ e, (runHourlyOptimization st (.error e)).2
      = ["❌ Error during hourly optimization: " ++ e]) ∧
    (∀ e, (runWeeklyCalibration st (.error e)).2
      = ["❌ Error during weekly calibration: " ++ e]) := by
  refine ⟨?_, ?_, fun e => rfl, fun e => rfl, fun e => rfl⟩
  · rcases outcome with e | r
    · rfl
    · by_cases hr : r.success <;>
        simp [runHourlyOptimization, hourlyTryBlock, hr]
  · rcases outcome with e | r
    · rfl
    · by_cases hr : r.success <;>
        simp [runWeeklyCalibration, weeklyTryBlock, hr]

end BoilerDriver

namespace BoilerDriver

/-- C10 counterexample: with both settings present but `melcloud_user` the
empty string, driver initialization leaves both jobs stopped — presence of
the two settings is not sufficient, because the guard tests JavaScript
truthiness (`if (melcloudUser && deviceId)`) and the empty string is falsy. -/
theorem init_present_settings_jobs_stopped :
    (⟨some "", some "123"⟩ : Settings).melcloud_user ≠ none ∧
    (⟨some "", some "123"⟩ : Settings).device_id ≠ none ∧
    jobRunning (initializeCronJobs ⟨some "", some "123"⟩).hourlyJob = false ∧
    jobRunning (initializeCronJobs ⟨some "", some "123"⟩).weeklyJob = false :=
  ⟨fun h => Option.noConfusion h, fun h => Option.noConfusion h, rfl, rfl⟩

/-- C10 (amended): driver initialization creates both cron jobs stopped and
invokes the guard exactly once; when both settings are present and non-empty
(JavaScript-truthy) at initialization time, both jobs are Running as a
postcondition, with no further guard call. -/
theorem init_starts_jobs_when_truthy (s : Settings)
    (hu : truthy s.melcloud_user = true) (hd : truthy s.device_id = true) :
    jobRunning createdJobs.hourlyJob = false ∧
    jobRunning createdJobs.weeklyJob = false ∧
    initializeCronJobs s = ensureCronRunningIfReady s createdJobs ∧
    jobRunning (initializeCronJobs s).hourlyJob = true ∧
    jobRunning (initializeCronJobs s).weeklyJob = true := by
  refine ⟨rfl, rfl, rfl, ?_, ?_⟩ <;>
    simp [initializeCronJobs, ensureCronRunningIfReady, hu, hd, createdJobs,
      startJob, jobRunning]

/-- Witness for the amended C10 at concrete non-empty settings. -/
theorem init_starts_jobs_when_truthy_witness :
    truthy (⟨some "user", some "123"⟩ : Settings).melcloud_user = true ∧
    truthy (⟨some "user", some "123"⟩ : Settings).device_id = true ∧
    jobRunning (initializeCronJobs ⟨some "user", some "123"⟩).hourlyJob
      = true :=
  ⟨by decide, by decide,
    (init_starts_jobs_when_truthy ⟨some "user", some "123"⟩ (by decide)
      (by decide)).2.2.2.1⟩

end BoilerDriver
